import Mathlib

/-!
Shallow embedding of the core of the `qualisys_lsl_app` repository
(`qlsl/config.py` and `qlsl/link.py`): QTM parameter parsing into a
`Config`, LSL channel-metadata generation, packet-to-sample conversion,
and the link lifecycle state machine.

Numeric values carried by packets and parameters are modelled as exact
rationals (`ℚ`); the Python code computes with binary floats, but every
property below depends only on which transformation is applied to which
field, and on list lengths and orderings, never on float artifacts.
Python exceptions are modelled with `Except`; `asyncio.ensure_future`
on a coroutine is modelled by appending the pending call to an explicit
`scheduled` list that an event-loop function later executes.
-/

namespace Qlsl

/-- Python exception kinds that the embedded code can raise.  The code
under `qlsl/` raises `KeyError` (missing dict key), `TypeError`
(e.g. `float(None)` or iterating `None`), `ValueError` (`float` of a
non-numeric string) and `AttributeError` (`None.lower()`).  The
constructor `configError` is included only because the specification
names a `ConfigError` kind; no definition in this development ever
produces it (no such class exists in the source). -/
inductive PyError where
  | keyError (key : String)
  | typeError
  | valueError
  | attributeError
  | configError
deriving DecidableEq, Repr

/-- An element of the parsed XML tree, as `xml.etree.ElementTree`
presents it to `qlsl/config.py`: a tag, optional text, and a list of
child elements (attributes are never read by the code). -/
structure XmlElem where
  tag : String
  text : Option String
  children : List XmlElem
deriving Repr

/-- Model of `Element.find("./T")`: the first child whose tag is `t`. -/
def find (e : XmlElem) (t : String) : Option XmlElem :=
  e.children.find? (fun c => c.tag == t)

/-- Model of `Element.findall("./T")`: all children whose tag is `t`. -/
def findall (e : XmlElem) (t : String) : List XmlElem :=
  e.children.filter (fun c => c.tag == t)

/-- Model of `Element.findtext("./T")`: `none` when no child matches
(the Python default `None`), and the child's text with `None` replaced
by the empty string when one does. -/
def findtext (e : XmlElem) (t : String) : Option String :=
  (find e t).map (fun c => c.text.getD "")

/-- Digits of a decimal literal folded into a natural number; `none` as
soon as a non-digit character appears. -/
def digitsToNat (cs : List Char) : Option ℕ :=
  cs.foldl (fun acc c =>
    match acc with
    | none => none
    | some n => if c.isDigit then some (10 * n + (c.toNat - 48)) else none)
    (some 0)

/-- Decimal-literal fragment of Python `float(string)`: optional sign,
integer digits, optional fraction.  (Exponents, `inf`/`nan` and
surrounding whitespace, which the code never feeds it, are not
modelled.)  Returns `none` on a malformed literal, where Python raises
`ValueError`. -/
def parseDecimal (s : String) : Option ℚ :=
  let cs := s.toList
  let sgncs : ℚ × List Char :=
    match cs with
    | '-' :: r => (-1, r)
    | '+' :: r => (1, r)
    | _ => (1, cs)
  let sgn := sgncs.1
  let cs := sgncs.2
  let ip := cs.takeWhile (fun c => c != '.')
  let rest := cs.dropWhile (fun c => c != '.')
  match rest with
  | [] => if ip.isEmpty then none else (digitsToNat ip).map (fun n => sgn * n)
  | _ :: fp =>
    if ip.isEmpty && fp.isEmpty then none
    else
      match digitsToNat ip, digitsToNat fp with
      | some i, some f => some (sgn * ((i : ℚ) + (f : ℚ) / (10 : ℚ) ^ fp.length))
      | _, _ => none

/-- Python `float(x)` applied to an `Element.text`-like value: `None`
raises `TypeError`, a non-numeric string raises `ValueError`. -/
def pyFloat : Option String → Except PyError ℚ
  | none => .error .typeError
  | some s =>
    match parseDecimal s with
    | some q => .ok q
    | none => .error .valueError

/-- Python `str(x)` for an optional string: `None` prints as `"None"`.
Used by `"{}_{}".format(...)`-style label construction. -/
def pyStr : Option String → String
  | none => "None"
  | some s => s

/-- ASCII lowercase of one character, written so that it reduces in
the kernel (Python `str.lower()` on the ASCII tag/angle names this
code compares). -/
def charLower (c : Char) : Char :=
  if 'A' ≤ c ∧ c ≤ 'Z' then Char.ofNat (c.toNat + 32) else c

/-- Python `str.lower()` for the ASCII strings this code lowers. -/
def pyLower (s : String) : String := String.mk (s.data.map charLower)

/-- Rounding to the nearest integer with ties to even, the tie-breaking
rule of Python 3 `round`. -/
def round_half_to_even (x : ℚ) : ℤ :=
  let f := ⌊x⌋
  let r := x - f
  if r < 1 / 2 then f
  else if 1 / 2 < r then f + 1
  else if f % 2 = 0 then f else f + 1

/-- Model of `mm_to_m` in `qlsl/config.py`: `round(mm/1000, 6)`,
i.e. rounding `mm / 1000` to six decimal digits with Python's
round-half-to-even, over exact rationals. -/
def mm_to_m (mm : ℚ) : ℚ :=
  ((round_half_to_even (mm / 1000 * 1000000) : ℚ)) / 1000000

/-- An `{x, y, z}` position dictionary as built by the camera-position
and body-point loops: each key present only if a correspondingly tagged
child appeared. -/
structure PosDict where
  x : Option ℚ
  y : Option ℚ
  z : Option ℚ
deriving DecidableEq, Repr

/-- A camera dictionary from `parse_qtm_parameters_general`.  Outer
`Option` = key present in the dict; inner `Option` = the element text,
which may itself be Python `None`. -/
structure Camera where
  id : Option (Option String)
  model : Option (Option String)
  serial : Option (Option String)
  mode : Option (Option String)
  video_frequency : Option (Option String)
  position : Option PosDict
deriving DecidableEq, Repr

/-- The dictionary returned by `parse_qtm_parameters_general`. -/
structure General where
  frequency : ℚ
  cameras : List Camera
deriving DecidableEq, Repr

/-- The dictionary returned by `parse_qtm_parameters_3d`: the marker
label texts in document order (a label text may be `None`). -/
structure The3d where
  markers : List (Option String)
deriving DecidableEq, Repr

/-- A body dictionary from `parse_qtm_parameters_6d`: the `name` key is
present only if a `Name` child appeared (its text may be `None`). -/
structure Body where
  name : Option (Option String)
  points : List PosDict
deriving DecidableEq, Repr

/-- The euler dictionary from `parse_qtm_parameters_6d`: each of the
keys `first`, `second`, `third` present only if so-tagged children
appeared. -/
structure EulerDict where
  first : Option (Option String)
  second : Option (Option String)
  third : Option (Option String)
deriving DecidableEq, Repr

/-- The dictionary returned by `parse_qtm_parameters_6d`. -/
structure The6d where
  bodies : List Body
  euler : EulerDict
deriving DecidableEq, Repr

/-- Model of class `Config`: `none` models the empty dict `{}` that
`Config.__init__` installs and that a missing/empty XML section leaves
in place (each parse function, when run, returns a dict with all its
keys present). -/
structure Config where
  general : Option General
  the_3d : Option The3d
  the_6d : Option The6d
deriving DecidableEq, Repr

/-- The fresh `Config()` built by `Config.__init__` (all dicts empty). -/
def Config.init : Config := ⟨none, none, none⟩

/-- Model of `Config.markers`: `self.the_3d["markers"]`, with `KeyError`
on the empty dict caught and turned into `[]`. -/
def Config.markers (c : Config) : List (Option String) :=
  match c.the_3d with
  | some t => t.markers
  | none => []

/-- Model of `Config.marker_count`. -/
def Config.marker_count (c : Config) : ℕ := c.markers.length

/-- Model of `Config.bodies`: `self.the_6d["bodies"]`, with `KeyError`
on the empty dict caught and turned into `[]`. -/
def Config.bodies (c : Config) : List Body :=
  match c.the_6d with
  | some t => t.bodies
  | none => []

/-- Model of `Config.body_count`. -/
def Config.body_count (c : Config) : ℕ := c.bodies.length

/-- Model of `Config.cameras`: `self.general["cameras"]`, with
`KeyError` on the empty dict caught and turned into `[]`. -/
def Config.cameras (c : Config) : List Camera :=
  match c.general with
  | some g => g.cameras
  | none => []

/-- Model of `Config.camera_count`. -/
def Config.camera_count (c : Config) : ℕ := c.cameras.length

/-- Model of `Config.channel_count`:
`3*self.marker_count() + 6*self.body_count()`. -/
def Config.channel_count (c : Config) : ℕ :=
  3 * c.marker_count + 6 * c.body_count

/-- Effectful map over a list in the `Except` monad, written as the
explicit recursion the parsing loops perform: stop at the first raised
exception, otherwise collect results in order. -/
def mapME (f : α → Except PyError β) : List α → Except PyError (List β)
  | [] => .ok []
  | a :: as =>
    match f a with
    | .error e => .error e
    | .ok b =>
      match mapME f as with
      | .error e => .error e
      | .ok bs => .ok (b :: bs)

/-- The inner `position = {}` loop shared verbatim by the camera block
of `parse_qtm_parameters_general` and the point block of
`parse_qtm_parameters_6d`: for each child whose lowered tag is `x`,
`y` or `z`, store `float(text)` under that key. -/
def parse_position_dict (ps : List XmlElem) (acc : PosDict) : Except PyError PosDict :=
  match ps with
  | [] => .ok acc
  | p :: rest =>
    let tg := pyLower p.tag
    if tg == "x" then
      match pyFloat p.text with
      | .error e => .error e
      | .ok v => parse_position_dict rest { acc with x := some v }
    else if tg == "y" then
      match pyFloat p.text with
      | .error e => .error e
      | .ok v => parse_position_dict rest { acc with y := some v }
    else if tg == "z" then
      match pyFloat p.text with
      | .error e => .error e
      | .ok v => parse_position_dict rest { acc with z := some v }
    else parse_position_dict rest acc

/-- The per-camera parameter loop of `parse_qtm_parameters_general`:
text fields stored for the five known tags, a `position` child parsed
into a position dict (last one wins), other tags ignored. -/
def parse_camera_params (ps : List XmlElem) (acc : Camera) : Except PyError Camera :=
  match ps with
  | [] => .ok acc
  | p :: rest =>
    let tg := pyLower p.tag
    if tg == "id" then parse_camera_params rest { acc with id := some p.text }
    else if tg == "model" then parse_camera_params rest { acc with model := some p.text }
    else if tg == "serial" then parse_camera_params rest { acc with serial := some p.text }
    else if tg == "mode" then parse_camera_params rest { acc with mode := some p.text }
    else if tg == "video_frequency" then
      parse_camera_params rest { acc with video_frequency := some p.text }
    else if tg == "position" then
      match parse_position_dict p.children ⟨none, none, none⟩ with
      | .error e => .error e
      | .ok pos => parse_camera_params rest { acc with position := some pos }
    else parse_camera_params rest acc

/-- Model of `parse_qtm_parameters_general`: the camera loop runs
first, then `frequency = float(xml_general.findtext("./Frequency"))` —
so a missing `Frequency` element raises `TypeError` (`float(None)`)
after the cameras parsed fine. -/
def parse_qtm_parameters_general (g : XmlElem) : Except PyError General :=
  match mapME (fun cam => parse_camera_params cam.children ⟨none, none, none, none, none, none⟩)
      (findall g "Camera") with
  | .error e => .error e
  | .ok cams =>
    match pyFloat (findtext g "Frequency") with
    | .error e => .error e
    | .ok freq => .ok { frequency := freq, cameras := cams }

/-- Model of `parse_qtm_parameters_3d`: the texts of all
`./Label/Name` elements, in document order. -/
def parse_qtm_parameters_3d (t : XmlElem) : The3d :=
  { markers := ((findall t "Label").flatMap (fun lab => findall lab "Name")).map (fun n => n.text) }

/-- The per-body parameter loop of `parse_qtm_parameters_6d`: a `name`
key for a `Name` child (last wins), points appended in order, other
tags ignored. -/
def parse_body_params (ps : List XmlElem) (acc : Body) : Except PyError Body :=
  match ps with
  | [] => .ok acc
  | p :: rest =>
    let tg := pyLower p.tag
    if tg == "name" then parse_body_params rest { acc with name := some p.text }
    else if tg == "point" then
      match parse_position_dict p.children ⟨none, none, none⟩ with
      | .error e => .error e
      | .ok pt => parse_body_params rest { acc with points := acc.points ++ [pt] }
    else parse_body_params rest acc

/-- The euler loop of `parse_qtm_parameters_6d`, over the children of
the `Euler` element. -/
def parse_euler_params (ps : List XmlElem) (acc : EulerDict) : EulerDict :=
  match ps with
  | [] => acc
  | p :: rest =>
    let tg := pyLower p.tag
    if tg == "first" then parse_euler_params rest { acc with first := some p.text }
    else if tg == "second" then parse_euler_params rest { acc with second := some p.text }
    else if tg == "third" then parse_euler_params rest { acc with third := some p.text }
    else parse_euler_params rest acc

/-- Model of `parse_qtm_parameters_6d`: bodies first, then
`xml_6d.find("./Euler")` is iterated — when there is no `Euler` child,
`find` returns `None` and iterating it raises `TypeError`. -/
def parse_qtm_parameters_6d (t : XmlElem) : Except PyError The6d :=
  match mapME (fun b => parse_body_params b.children ⟨none, []⟩) (findall t "Body") with
  | .error e => .error e
  | .ok bodies =>
    match find t "Euler" with
    | none => .error .typeError
    | some eu => .ok { bodies := bodies, euler := parse_euler_params eu.children ⟨none, none, none⟩ }

/-- Model of `parse_qtm_parameters` (input already parsed into an
element tree; `ET.fromstring` and its `ParseError` on malformed text
are the XML library's concern, outside this embedding).  Note the
Python truthiness test `if xml_general:` on an `Element` — an element
with no children is falsy, so a present-but-childless section is
skipped exactly like a missing one. -/
def parse_qtm_parameters (xml : XmlElem) : Except PyError Config :=
  match
    (match find xml "General" with
     | some g =>
       if g.children.isEmpty then Except.ok none
       else
         match parse_qtm_parameters_general g with
         | .error e => .error e
         | .ok gg => .ok (some gg)
     | none => Except.ok none) with
  | .error e => .error e
  | .ok general =>
    let the_3d :=
      match find xml "The_3D" with
      | some t => if t.children.isEmpty then none else some (parse_qtm_parameters_3d t)
      | none => none
    match
      (match find xml "The_6D" with
       | some t =>
         if t.children.isEmpty then Except.ok none
         else
           match parse_qtm_parameters_6d t with
           | .error e => .error e
           | .ok s => .ok (some s)
       | none => Except.ok none) with
    | .error e => .error e
    | .ok the_6d => .ok { general := general, the_3d := the_3d, the_6d := the_6d }

/-- The two QTM realtime component kinds the code inspects
(`QRTComponentType.Component3d` and `QRTComponentType.Component6dEuler`;
the enum's other members are never mentioned). -/
inductive QRTComponentType where
  | Component3d
  | Component6dEuler
deriving DecidableEq, Repr

/-- A 3D position as delivered in a QTM packet (millimeters). -/
structure Pos3 where
  x : ℚ
  y : ℚ
  z : ℚ
deriving DecidableEq, Repr

/-- A 6DOF euler rotation as delivered in a QTM packet (degrees). -/
structure Rot3 where
  a1 : ℚ
  a2 : ℚ
  a3 : ℚ
deriving DecidableEq, Repr

/-- A QTM realtime packet as `qtm_packet_to_lsl_sample` consumes it:
its component list, the markers `get_3d_markers()` yields, and the
`(position, rotation)` pairs `get_6d_euler()` yields. -/
structure Packet where
  components : List QRTComponentType
  markers : List Pos3
  bodies : List (Pos3 × Rot3)
deriving DecidableEq, Repr

/-- Model of `qtm_packet_to_lsl_sample`: start from the empty sample,
and — mirroring the two `if ... in packet.components` blocks — append
`mm_to_m x, y, z` for each 3D marker, then `mm_to_m x, y, z` and the
raw `a1, a2, a3` for each 6DOF-euler body. -/
def qtm_packet_to_lsl_sample (packet : Packet) : List ℚ :=
  let sample : List ℚ := []
  let sample :=
    if QRTComponentType.Component3d ∈ packet.components then
      packet.markers.foldl
        (fun s m => s ++ [mm_to_m m.x, mm_to_m m.y, mm_to_m m.z]) sample
    else sample
  let sample :=
    if QRTComponentType.Component6dEuler ∈ packet.components then
      packet.bodies.foldl
        (fun s pr =>
          s ++ [mm_to_m pr.1.x, mm_to_m pr.1.y, mm_to_m pr.1.z, pr.2.a1, pr.2.a2, pr.2.a3])
        sample
    else sample
  sample

/-- One channel descriptor appended under the `channels` node of the
LSL stream metadata: the formatted label, the value of the `marker` /
`object` child (here `role` records which of the two keys was used),
the `type` string and the `unit` string. -/
structure Channel where
  label : String
  role : String
  entity : String
  ch_type : String
  unit : String
deriving DecidableEq, Repr

/-- The channel that `append_position_channel` emits (in both
`lsl_stream_info_add_markers` and `lsl_stream_info_add_6dof`): label
`"{name}_{component}"`, type `"Position" + component`, unit meters. -/
def position_channel (role nm comp : String) : Channel :=
  { label := nm ++ "_" ++ comp
    role := role
    entity := nm
    ch_type := "Position" ++ comp
    unit := "meters" }

/-- The channel that `append_orientation_channel` emits: label
`"{name}_{component}"`, type `"Orientation" + component`, unit
degrees. -/
def orientation_channel (nm comp : String) : Channel :=
  { label := nm ++ "_" ++ comp
    role := "object"
    entity := nm
    ch_type := "Orientation" ++ comp
    unit := "degrees" }

/-- Model of `lsl_stream_info_add_markers`: for each marker of the
configuration, in order, an X, Y and Z position channel. -/
def lsl_stream_info_add_markers (c : Config) : List Channel :=
  c.markers.flatMap (fun m =>
    [position_channel "marker" (pyStr m) "X",
     position_channel "marker" (pyStr m) "Y",
     position_channel "marker" (pyStr m) "Z"])

/-- The dict `euler_angle_to_component` of `lsl_stream_info_add_6dof`:
`none` models the `KeyError` an unknown key raises. -/
def euler_angle_to_component (s : String) : Option String :=
  if s == "pitch" then some "P"
  else if s == "roll" then some "R"
  else if s == "yaw" then some "H"
  else none

/-- The body of `append_orientation_channel` for one angle entry of the
euler dict: a missing key raises `KeyError key`, a `None` text raises
`AttributeError` (`None.lower()`), an unrecognized lowered angle name
raises `KeyError` on the lowered name. -/
def resolve_angle (key : String) (entry : Option (Option String)) : Except PyError String :=
  match entry with
  | none => .error (.keyError key)
  | some none => .error .attributeError
  | some (some a) =>
    match euler_angle_to_component (pyLower a) with
    | none => .error (.keyError (pyLower a))
    | some comp => .ok comp

/-- One iteration of the body loop of `lsl_stream_info_add_6dof`:
`body["name"]` (a `KeyError` if the body dict has no `name` key), three
position channels, then `config.the_6d["euler"]` (a `KeyError` on the
empty dict) and one orientation channel per euler angle, in the order
first, second, third. -/
def body_channels (c : Config) (b : Body) : Except PyError (List Channel) :=
  match b.name with
  | none => .error (.keyError "name")
  | some nmtext =>
    let nm := pyStr nmtext
    match c.the_6d with
    | none => .error (.keyError "euler")
    | some six =>
      match resolve_angle "first" six.euler.first with
      | .error e => .error e
      | .ok c1 =>
        match resolve_angle "second" six.euler.second with
        | .error e => .error e
        | .ok c2 =>
          match resolve_angle "third" six.euler.third with
          | .error e => .error e
          | .ok c3 =>
            .ok [position_channel "object" nm "X",
                 position_channel "object" nm "Y",
                 position_channel "object" nm "Z",
                 orientation_channel nm c1,
                 orientation_channel nm c2,
                 orientation_channel nm c3]

/-- Model of `lsl_stream_info_add_6dof`: the per-body channel blocks
concatenated in body order; the first exception aborts the build. -/
def lsl_stream_info_add_6dof (c : Config) : Except PyError (List Channel) :=
  match mapME (body_channels c) c.bodies with
  | .error e => .error e
  | .ok chunks => .ok chunks.flatten

/-- Model of the `channels` subtree built by `new_lsl_stream_info`:
`lsl_stream_info_add_markers` runs first, then
`lsl_stream_info_add_6dof`, both appending to the same `channels`
node, so the result is the marker channels followed by the body
channels.  (The `setup`, `cameras` and `acquisition` subtrees and the
`StreamInfo` scalar fields carry no channel descriptors and are not
modelled.) -/
def new_lsl_stream_info (c : Config) : Except PyError (List Channel) :=
  let mk := lsl_stream_info_add_markers c
  match lsl_stream_info_add_6dof c with
  | .error e => .error e
  | .ok bd => .ok (mk ++ bd)

/-- Whether a metadata build failed with the `ConfigError` the
specification names.  Always false on the outputs of this code, which
has no such exception class. -/
def is_config_error : Except PyError (List Channel) → Bool
  | .error .configError => true
  | _ => false

/-- The three values the Sample Converter appends for one 3D marker
(converted positions), used on the specification side of the
alignment statement. -/
def marker_values (m : Pos3) : List ℚ :=
  [mm_to_m m.x, mm_to_m m.y, mm_to_m m.z]

/-- The six values the Sample Converter appends for one 6DOF body:
converted position then the raw rotation angles. -/
def body_values (q : Pos3 × Rot3) : List ℚ :=
  [mm_to_m q.1.x, mm_to_m q.1.y, mm_to_m q.1.z, q.2.a1, q.2.a2, q.2.a3]

/-- For one (configured marker, packet marker) pair: the marker's
X, Y, Z channel descriptors, each paired with the converted value the
converter appends at the same offset. -/
def marker_pair_triple (pr : Option String × Pos3) : List (Channel × ℚ) :=
  [(position_channel "marker" (pyStr pr.1) "X", mm_to_m pr.2.x),
   (position_channel "marker" (pyStr pr.1) "Y", mm_to_m pr.2.y),
   (position_channel "marker" (pyStr pr.1) "Z", mm_to_m pr.2.z)]

/-- For one (configured body, packet body) pair: the body's six channel
descriptors as the Metadata Builder emits them, zipped with the six
values the converter appends for that body. -/
def body_pair_block (c : Config) (pr : Body × (Pos3 × Rot3)) : Except PyError (List (Channel × ℚ)) :=
  match body_channels c pr.1 with
  | .error e => .error e
  | .ok chans => .ok (chans.zip (body_values pr.2))

/-- Specification-side description of the claimed metadata/sample
alignment (from the spec's words, for comparison with the code-derived
builder and converter): pair the configuration's markers with the
packet's markers and the configuration's bodies with the packet's
bodies positionally, and emit, for each marker, its X, Y, Z channels
paired with the converted x, y, z values, then, for each body, its
X, Y, Z position channels paired with converted positions followed by
its three orientation channels paired with the raw rotation angles. -/
def spec_aligned (c : Config) (p : Packet) : Except PyError (List (Channel × ℚ)) :=
  match mapME (body_pair_block c) (c.bodies.zip p.bodies) with
  | .error e => .error e
  | .ok chunks => .ok ((c.markers.zip p.markers).flatMap marker_pair_triple ++ chunks.flatten)

/-- The `State` enum of `qlsl/link.py`. -/
inductive State where
  | INITIAL
  | WAITING
  | STREAMING
  | STOPPED
deriving DecidableEq, Repr

/-- Observable side effects other than callbacks, recorded in order:
the session commands the link issues, queue operations, and each
sample pushed to the LSL outlet.  The step markers (`fetchParams`,
`parseParams`, `checkChannels`, `createQueue`, `startConsumer`,
`buildMetadata`, `constructOutlet`, `streamFrames`) record the
successive statements of `start_stream` as they execute. -/
inductive Action where
  | fetchParams
  | parseParams
  | checkChannels
  | createQueue
  | startConsumer
  | buildMetadata
  | constructOutlet
  | streamFrames
  | streamFramesStop
  | putSentinel
  | disconnect
  | pushSample (s : List ℚ)
deriving DecidableEq, Repr

/-- What the link reports through its two callbacks: every `set_state`
call emits a `stateChanged`, every `on_error` call emits an `error`. -/
inductive Notification where
  | stateChanged (s : State)
  | error (msg : String)
deriving DecidableEq, Repr

/-- The behavior of the connected QTM session (the external
`qtm_rt` connection object): whether it still has a transport, and the
outcome of each command the link may issue (`QRTCommandException`
modelled as a `String` error). -/
structure Session where
  has_transport : Bool
  get_state_r : Except String Unit
  get_parameters_r : Except String XmlElem
  stream_frames_r : Except String Unit
  stream_frames_stop_r : Except String Unit
deriving Repr

/-- The mutable state of a `Link` object together with its recorded
side effects.  `scheduled` holds the arguments of `shutdown` coroutines
handed to `asyncio.ensure_future` by `err_disconnect` and not yet run
by the event loop.  `clock` stands for the value `time.time()` returns
during the modelled call. -/
structure LinkState where
  state : State
  conn : Option Session
  packet_count : ℕ
  start_time : ℕ
  stop_time : ℕ
  clock : ℕ
  config : Config
  receiver_queue : Option (List Packet)
  receiver_task : Bool
  lsl_info : Option (List Channel)
  lsl_outlet : Bool
  scheduled : List (Option String)
  trace : List Action
  notes : List Notification
deriving Repr

/-- Model of `Link.set_state`: assign and notify unconditionally. -/
def set_state (l : LinkState) (s : State) : LinkState :=
  { l with state := s, notes := l.notes ++ [Notification.stateChanged s] }

/-- Model of `Link.on_error`: report through the error callback. -/
def on_error (l : LinkState) (msg : String) : LinkState :=
  { l with notes := l.notes ++ [.error msg] }

/-- Model of `Link.err_disconnect`:
`asyncio.ensure_future(self.shutdown(err_msg))` — the shutdown call is
only scheduled, to be run by the event loop later. -/
def err_disconnect (l : LinkState) (msg : String) : LinkState :=
  { l with scheduled := l.scheduled ++ [some msg] }

/-- Model of `Link.reset_stream_context`. -/
def reset_stream_context (l : LinkState) : LinkState :=
  { l with config := Config.init, receiver_queue := none, receiver_task := false,
           lsl_info := none, lsl_outlet := false }

/-- One iteration of the consumer loop of `Link.stream_receiver` for a
dequeued packet: convert, compare the sample length with the
configuration's channel count, and either schedule an error-driven
shutdown (pushing nothing, counting nothing) or increment
`packet_count` and push the sample to the outlet. -/
def stream_receiver_step (l : LinkState) (p : Packet) : LinkState :=
  let sample := qtm_packet_to_lsl_sample p
  if sample.length ≠ l.config.channel_count then
    err_disconnect l "Stream canceled: QTM stream data inconsistent with LSL metadata"
  else
    { l with packet_count := l.packet_count + 1, trace := l.trace ++ [Action.pushSample sample] }

/-- Model of `Link.stop_stream`: issue `stream_frames_stop` when the
connection still has a transport (a command failure is logged and
tolerated); when a receiver queue exists, put the `None` sentinel and
await the consumer task, which processes every packet still queued and
then exits; reset the stream context; and, when the state is still
STREAMING, record `stop_time` and notify WAITING. -/
def stop_stream (l : LinkState) : LinkState :=
  let l :=
    match l.conn with
    | some s => if s.has_transport then { l with trace := l.trace ++ [Action.streamFramesStop] } else l
    | none => l
  let l :=
    match l.receiver_queue with
    | some q =>
      let l := { l with trace := l.trace ++ [Action.putSentinel] }
      let l := q.foldl stream_receiver_step l
      { l with receiver_queue := some [] }
    | none => l
  let l := reset_stream_context l
  if l.state = State.STREAMING then
    let l := { l with stop_time := l.clock }
    set_state l State.WAITING
  else l

/-- One run of the `Link.shutdown` coroutine: `stop_stream` when
STREAMING, then `disconnect` when a connection with a transport
remains, drop the connection, and — in the `finally` block,
unconditionally — notify STOPPED and report the reason if one was
given. -/
def shutdown_once (l : LinkState) (err : Option String) : LinkState :=
  let l := if l.state = State.STREAMING then stop_stream l else l
  let l :=
    match l.conn with
    | some s => if s.has_transport then { l with trace := l.trace ++ [Action.disconnect] } else l
    | none => l
  let l := { l with conn := none }
  let l := set_state l State.STOPPED
  match err with
  | some m => on_error l m
  | none => l

/-- The event loop running the scheduled `shutdown` coroutines in
order, each run possibly scheduling more (a mismatched packet drained
during `stop_stream` schedules another shutdown). -/
def run_scheduled : ℕ → LinkState → LinkState
  | 0, l => l
  | fuel + 1, l =>
    match l.scheduled with
    | [] => l
    | e :: rest => run_scheduled fuel (shutdown_once { l with scheduled := rest } e)

/-- Fuel that always suffices for `run_scheduled`: only a shutdown from
STREAMING drains the queue and thereby schedules more shutdowns, each
drained packet scheduling at most one, and after the first shutdown the
state is STOPPED and the queue is gone. -/
def event_loop_fuel (l : LinkState) : ℕ :=
  l.scheduled.length + (match l.receiver_queue with | some q => q.length | none => 0) + 1

/-- Run every scheduled shutdown to completion. -/
def event_loop (l : LinkState) : LinkState :=
  run_scheduled (event_loop_fuel l) l

/-- Model of `Link.start_stream`, with `open_lsl_stream_outlet`
inlined at its call site.  Fetch parameters (an `AttributeError` on a
`None` connection, or a `QRTCommandException`, lands in the matching
`except` branch and schedules an error-driven shutdown), parse them,
reject a zero-channel configuration, install the configuration, create
the receiver queue, start the consumer task, build the stream metadata
and construct the outlet, request frame delivery, and only then reset
`packet_count`, record `start_time` and notify STREAMING. -/
def start_stream (l : LinkState) : LinkState :=
  match l.conn with
  | none => err_disconnect l "An internal error occurred. See log messages for details."
  | some s =>
    let l := { l with trace := l.trace ++ [Action.fetchParams] }
    match s.get_parameters_r with
    | .error e => err_disconnect l ("QTM error: " ++ e)
    | .ok doc =>
      let l := { l with trace := l.trace ++ [Action.parseParams] }
      match parse_qtm_parameters doc with
      | .error _ => err_disconnect l "An internal error occurred. See log messages for details."
      | .ok config =>
        let l := { l with trace := l.trace ++ [Action.checkChannels] }
        if config.channel_count = 0 then
          err_disconnect l "No 3D or 6DOF data available from QTM"
        else
          let l := { l with config := config,
                            receiver_queue := some [],
                            trace := l.trace ++ [Action.createQueue, .startConsumer],
                            receiver_task := true }
          let l := { l with trace := l.trace ++ [Action.buildMetadata] }
          match new_lsl_stream_info config with
          | .error _ =>
            err_disconnect l "An internal error occurred. See log messages for details."
          | .ok chans =>
            let l := { l with lsl_info := some chans, lsl_outlet := true,
                              trace := l.trace ++ [Action.constructOutlet] }
            let l := { l with trace := l.trace ++ [Action.streamFrames] }
            match s.stream_frames_r with
            | .error e => err_disconnect l ("QTM error: " ++ e)
            | .ok _ =>
              let l := { l with packet_count := 0, start_time := l.clock }
              set_state l State.STREAMING

/-- The `Link` object as `Link.__init__` leaves it (no notification is
emitted: the state field is assigned directly, not via `set_state`). -/
def link_init (clk : ℕ) : LinkState :=
  { state := State.INITIAL
    conn := none
    packet_count := 0
    start_time := 0
    stop_time := 0
    clock := clk
    config := Config.init
    receiver_queue := none
    receiver_task := false
    lsl_info := none
    lsl_outlet := false
    scheduled := []
    trace := []
    notes := [] }

/-- Model of the module-level coroutine `init`: `qtm.connect` yields a
session or `None`; on `None` a `LinkError` is raised, caught by the
bare `except`, which awaits `shutdown()` and re-raises.  On a session,
`set_state(WAITING)` runs first and only then `get_state()` is awaited;
a `QRTCommandException` there becomes a `LinkError`, again routed
through `shutdown()` and re-raised.  The second component is the
message of the `LinkError` surfaced to the caller, when one is. -/
def init (connect_r : Option Session) (clk : ℕ) : LinkState × Option String :=
  let l := link_init clk
  match connect_r with
  | none =>
    let l := shutdown_once l none
    (l, some "Failed to connect to QTM")
  | some s =>
    let l := { l with conn := some s }
    let l := set_state l State.WAITING
    match s.get_state_r with
    | .error e =>
      let l := shutdown_once l none
      (l, some ("QTM error: " ++ e))
    | .ok _ => (l, none)

/-- The three channels the Metadata Builder emits for one marker. -/
def marker_channel_triple (m : Option String) : List Channel :=
  [position_channel "marker" (pyStr m) "X",
   position_channel "marker" (pyStr m) "Y",
   position_channel "marker" (pyStr m) "Z"]

/-- Whether an action is a sample push to the outlet. -/
def is_push : Action → Bool
  | .pushSample _ => true
  | _ => false

/-- How many samples a trace has pushed to the outlet. -/
def count_pushes (tr : List Action) : ℕ := (tr.filter is_push).length

/-- Whether an action is the session `disconnect()` call. -/
def is_disc : Action → Bool
  | .disconnect => true
  | _ => false

/-- How many times a trace has called `disconnect()`. -/
def count_disc (tr : List Action) : ℕ := (tr.filter is_disc).length

/-- Whether a notification is a STOPPED state-changed notification. -/
def is_stop_note : Notification → Bool
  | .stateChanged .STOPPED => true
  | _ => false

/-- How many STOPPED state-changed notifications were emitted. -/
def count_stop (nts : List Notification) : ℕ := (nts.filter is_stop_note).length

/-- A link in the WAITING state with a connected session and no stream
context, as `start_stream` finds it when a start-trigger event fires. -/
def waiting_link (s : Session) (clk pc : ℕ) : LinkState :=
  { link_init clk with state := State.WAITING, conn := some s, packet_count := pc }

/-- The step markers of a fully successful `start_stream` run, in the
order the code executes them. -/
def canonical_start_trace : List Action :=
  [.fetchParams, .parseParams, .checkChannels, .createQueue, .startConsumer,
   .buildMetadata, .constructOutlet, .streamFrames]

/-- A `start_stream` call from `waiting_link s clk pc` ended in an
error-driven shutdown: once the scheduled shutdown has run, the link is
STOPPED, no STREAMING notification was ever emitted, and an error was
reported. -/
def start_error_shutdown (s : Session) (clk pc : ℕ) : Prop :=
  (event_loop (start_stream (waiting_link s clk pc))).state = State.STOPPED ∧
  Notification.stateChanged State.STREAMING ∉ (event_loop (start_stream (waiting_link s clk pc))).notes ∧
  ∃ m, Notification.error m ∈ (event_loop (start_stream (waiting_link s clk pc))).notes

/-- A parameter document with no `General`, `The_3D` or `The_6D`
section at all. -/
def doc_empty : XmlElem := ⟨"Parameters", none, []⟩

/-- A parameter document with a single 3D marker labelled `M1`. -/
def doc_3d : XmlElem :=
  ⟨"Parameters", none, [⟨"The_3D", none, [⟨"Label", none, [⟨"Name", some "M1", []⟩]⟩]⟩]⟩

/-- A parameter document whose `General` section has a child (one
camera with an `Id`) but no `Frequency` element. -/
def doc_nofreq : XmlElem :=
  ⟨"Parameters", none, [⟨"General", none, [⟨"Camera", none, [⟨"Id", some "1", []⟩]⟩]⟩]⟩

/-- A responsive session delivering the one-marker document. -/
def session_ok : Session := ⟨true, .ok (), .ok doc_3d, .ok (), .ok ()⟩

/-- A responsive session delivering the empty document (which parses to
a zero-channel configuration). -/
def session_zero : Session := ⟨true, .ok (), .ok doc_empty, .ok (), .ok ()⟩

/-- A session whose `get_state` command fails. -/
def session_state_fail : Session := ⟨true, .error "boom", .ok doc_empty, .ok (), .ok ()⟩

/-- A configuration with one rigid body `B` and the euler order
`Pitch, ROLL, yaw` (mixed case, all recognized). -/
def cfg_body_ok : Config :=
  ⟨none, some ⟨[some "M1"]⟩,
   some ⟨[⟨some (some "B"), []⟩],
         ⟨some (some "Pitch"), some (some "ROLL"), some (some "yaw")⟩⟩⟩

/-- The channel list the Metadata Builder produces for
`cfg_body_ok`. -/
def cfg_body_ok_chans : List Channel :=
  [position_channel "marker" "M1" "X", position_channel "marker" "M1" "Y",
   position_channel "marker" "M1" "Z",
   position_channel "object" "B" "X", position_channel "object" "B" "Y",
   position_channel "object" "B" "Z",
   orientation_channel "B" "P", orientation_channel "B" "R", orientation_channel "B" "H"]

/-- A configuration with one rigid body whose first euler angle name
`foo` is not a recognized angle. -/
def cfg_bad_angle : Config :=
  ⟨none, none,
   some ⟨[⟨some (some "B"), []⟩],
         ⟨some (some "foo"), some (some "roll"), some (some "yaw")⟩⟩⟩

/-- A packet carrying both components, one marker and one body, whose
counts match `cfg_body_ok`. -/
def pkt_full : Packet :=
  ⟨[.Component3d, .Component6dEuler], [⟨31, 62, 9⟩], [(⟨5, 10, 15⟩, ⟨30, 60, 90⟩)]⟩

/-- A packet carrying both components but no marker or body data. -/
def pkt_empty : Packet := ⟨[.Component3d, .Component6dEuler], [], []⟩

/-- A packet carrying only the 3D component with one marker. -/
def pkt_3d_only : Packet := ⟨[.Component3d], [⟨1, 2, 3⟩], []⟩

/-- A configuration expecting exactly one 3D marker (3 channels). -/
def cfg_one_marker : Config := ⟨none, some ⟨[some "M1"]⟩, none⟩

/-- A streaming link whose configuration expects 3 channels, with an
idle receiver queue, as the consumer task sees it between packets. -/
def streaming_link : LinkState :=
  { link_init 0 with
      state := State.STREAMING
      conn := some session_ok
      config := cfg_one_marker
      receiver_queue := some []
      receiver_task := true
      lsl_info := some (lsl_stream_info_add_markers cfg_one_marker)
      lsl_outlet := true }

/-- A waiting link connected to a responsive session, for the shutdown
scenarios. -/
def waiting_link0 : LinkState := waiting_link session_zero 0 0

/-- Folding list-append over a list is concatenation of the generated
blocks after the initial accumulator. -/
theorem foldl_append_eq (g : α → List β) :
    ∀ (l : List α) (init : List β),
      l.foldl (fun s a => s ++ g a) init = init ++ l.flatMap g := by
  intro l
  induction l with
  | nil => intro init; simp
  | cons a t ih => intro init; simp [List.flatMap_cons, ih, List.append_assoc]

/-- The converter's output is the per-marker value triples followed by
the per-body value six-tuples, each block present exactly when its
component is. -/
theorem sample_eq (p : Packet) :
    qtm_packet_to_lsl_sample p =
      (if QRTComponentType.Component3d ∈ p.components
        then p.markers.flatMap marker_values else []) ++
      (if QRTComponentType.Component6dEuler ∈ p.components
        then p.bodies.flatMap body_values else []) := by
  unfold qtm_packet_to_lsl_sample
  by_cases h3 : QRTComponentType.Component3d ∈ p.components <;>
    by_cases h6 : QRTComponentType.Component6dEuler ∈ p.components <;>
      simp [h3, h6, foldl_append_eq] <;> rfl

/-- Length of the marker value blocks: three values per marker. -/
theorem length_flatMap_marker_values (l : List Pos3) :
    (l.flatMap marker_values).length = 3 * l.length := by
  induction l with
  | nil => simp
  | cons a t ih => simp [List.flatMap_cons, ih, marker_values]; omega

/-- Length of the body value blocks: six values per body. -/
theorem length_flatMap_body_values (l : List (Pos3 × Rot3)) :
    (l.flatMap body_values).length = 6 * l.length := by
  induction l with
  | nil => simp
  | cons a t ih => simp [List.flatMap_cons, ih, body_values]; omega

/-- Claim C2: for every packet, the Sample Converter appends, for each
marker in the packet's 3D component in server-reported order, the x, y,
z positions converted by `round(mm/1000, 6)` (`mm_to_m`); then, for
each body in the packet's 6DOF-euler component in server-reported
order, the x, y, z positions converted the same way followed by the
three rotation angles unmodified; a component absent from the packet
contributes no values at all, so the output length depends on which
components the packet carries. -/
theorem claim_C2_converter_layout (p : Packet) :
    qtm_packet_to_lsl_sample p =
      (if QRTComponentType.Component3d ∈ p.components
        then p.markers.flatMap marker_values else []) ++
      (if QRTComponentType.Component6dEuler ∈ p.components
        then p.bodies.flatMap body_values else []) ∧
    (qtm_packet_to_lsl_sample p).length =
      (if QRTComponentType.Component3d ∈ p.components then 3 * p.markers.length else 0) +
      (if QRTComponentType.Component6dEuler ∈ p.components then 6 * p.bodies.length else 0) := by
  have h := sample_eq p
  constructor
  · exact h
  · rw [h, List.length_append]
    by_cases h3 : QRTComponentType.Component3d ∈ p.components <;>
      by_cases h6 : QRTComponentType.Component6dEuler ∈ p.components
    · rw [if_pos h3, if_pos h6, if_pos h3, if_pos h6,
          length_flatMap_marker_values, length_flatMap_body_values]
    · rw [if_pos h3, if_neg h6, if_pos h3, if_neg h6, length_flatMap_marker_values]; rfl
    · rw [if_neg h3, if_pos h6, if_neg h3, if_pos h6, length_flatMap_body_values]; rfl
    · rw [if_neg h3, if_neg h6, if_neg h3, if_neg h6]; rfl

/-- Claim C9: for every Configuration, `channel_count` equals
`3*marker_count + 6*body_count`, and for every packet carrying both
the 3D and 6DOF-euler components whose marker and body counts match
the Configuration's, the converted sample's length equals
`channel_count`. -/
theorem claim_C9_channel_count :
    (∀ c : Config, c.channel_count = 3 * c.marker_count + 6 * c.body_count) ∧
    (∀ (c : Config) (p : Packet),
      QRTComponentType.Component3d ∈ p.components →
      QRTComponentType.Component6dEuler ∈ p.components →
      p.markers.length = c.marker_count →
      p.bodies.length = c.body_count →
      (qtm_packet_to_lsl_sample p).length = c.channel_count) := by
  constructor
  · intro c; rfl
  · intro c p h3 h6 hm hb
    rw [sample_eq p, List.length_append, if_pos h3, if_pos h6,
        length_flatMap_marker_values, length_flatMap_body_values, hm, hb]
    rfl

/-- Witness for claim C9 at a concrete configuration and packet. -/
theorem claim_C9_channel_count_witness :
    cfg_body_ok.channel_count = 3 * cfg_body_ok.marker_count + 6 * cfg_body_ok.body_count ∧
    (qtm_packet_to_lsl_sample pkt_full).length = cfg_body_ok.channel_count :=
  ⟨claim_C9_channel_count.1 cfg_body_ok,
   claim_C9_channel_count.2 cfg_body_ok pkt_full (by decide) (by decide) (by decide) (by decide)⟩

/-- A successful per-body channel block always has exactly six
channels: three position and three orientation descriptors. -/
theorem body_channels_length (c : Config) (b : Body) (chans : List Channel)
    (h : body_channels c b = .ok chans) : chans.length = 6 := by
  unfold body_channels at h
  repeat' split at h
  all_goals try contradiction
  simp only [Except.ok.injEq] at h
  rw [← h]
  rfl

/-- The marker metadata is the per-marker channel triples in marker
order. -/
theorem add_markers_eq (c : Config) :
    lsl_stream_info_add_markers c = c.markers.flatMap marker_channel_triple := rfl

/-- Projections of the marker-side aligned pairs: the first components
are the marker channels in order, the second components are the
converted marker values in order. -/
theorem zip_marker_pairs :
    ∀ (ms : List (Option String)) (ps : List Pos3), ms.length = ps.length →
      ((ms.zip ps).flatMap marker_pair_triple).map Prod.fst = ms.flatMap marker_channel_triple ∧
      ((ms.zip ps).flatMap marker_pair_triple).map Prod.snd = ps.flatMap marker_values := by
  intro ms
  induction ms with
  | nil =>
    intro ps h
    have : ps = [] := List.length_eq_zero.mp h.symm
    subst this
    simp
  | cons m mt ih =>
    intro ps h
    cases ps with
    | nil => simp at h
    | cons q qt =>
      have hl : mt.length = qt.length := by simpa using h
      obtain ⟨ih1, ih2⟩ := ih qt hl
      simp [List.flatMap_cons, ih1, ih2, marker_pair_triple, marker_channel_triple, marker_values]

/-- Success of the code's per-body metadata pass transfers to the
aligned pairs: block by block, the first projections reproduce the
code's channel chunks and the second projections are the converter's
per-body value blocks. -/
theorem mapME_body_pairs (c : Config) :
    ∀ (bs : List Body) (pbs : List (Pos3 × Rot3)) (chunks : List (List Channel)),
      bs.length = pbs.length →
      mapME (body_channels c) bs = .ok chunks →
      ∃ pchunks, mapME (body_pair_block c) (bs.zip pbs) = .ok pchunks ∧
        pchunks.map (List.map Prod.fst) = chunks ∧
        pchunks.map (List.map Prod.snd) = pbs.map body_values := by
  intro bs
  induction bs with
  | nil =>
    intro pbs chunks h hm
    have : pbs = [] := List.length_eq_zero.mp h.symm
    subst this
    simp [mapME] at hm
    subst hm
    exact ⟨[], rfl, rfl, rfl⟩
  | cons b bt ih =>
    intro pbs chunks h hm
    cases pbs with
    | nil => simp at h
    | cons q qt =>
      have hl : bt.length = qt.length := by simpa using h
      unfold mapME at hm
      cases hbc : body_channels c b with
      | error e => rw [hbc] at hm; exact absurd hm (by simp)
      | ok ch =>
        rw [hbc] at hm
        cases hrest : mapME (body_channels c) bt with
        | error e => rw [hrest] at hm; exact absurd hm (by simp)
        | ok cht =>
          rw [hrest] at hm
          have hchunks : chunks = ch :: cht := by
            have := hm
            simp at this
            exact this.symm
          subst hchunks
          obtain ⟨pch, hpch, hfst, hsnd⟩ := ih qt cht hl hrest
          have hlen : ch.length = 6 := body_channels_length c b ch hbc
          refine ⟨(ch.zip (body_values q)) :: pch, ?_, ?_, ?_⟩
          · have hbp : body_pair_block c (b, q) = Except.ok (ch.zip (body_values q)) := by
              unfold body_pair_block; rw [hbc]
            rw [List.zip_cons_cons]
            simp only [mapME, hbp, hpch]
          · rw [List.map_cons, hfst, List.map_fst_zip]
            rw [hlen]
            simp [body_values]
          · rw [List.map_cons, hsnd, List.map_snd_zip, List.map_cons]
            rw [hlen]
            simp [body_values]

/-- Claim C1: for every Configuration whose metadata builds, the
Metadata Builder enumerates channel descriptors in exactly the order
the Sample Converter appends sample values for a matching packet: the
aligned pair list `spec_aligned` exists, its first projections are
exactly the built channels and its second projections are exactly the
converted sample, so the i-th metadata channel describes the i-th
converter output. -/
theorem claim_C1_metadata_sample_alignment (c : Config) (chans : List Channel) (p : Packet)
    (hm : new_lsl_stream_info c = .ok chans)
    (h3 : QRTComponentType.Component3d ∈ p.components)
    (h6 : QRTComponentType.Component6dEuler ∈ p.components)
    (hml : p.markers.length = c.marker_count)
    (hbl : p.bodies.length = c.body_count) :
    ∃ pairs, spec_aligned c p = .ok pairs ∧
      pairs.map Prod.fst = chans ∧
      pairs.map Prod.snd = qtm_packet_to_lsl_sample p := by
  unfold new_lsl_stream_info at hm
  cases h6d : lsl_stream_info_add_6dof c with
  | error e => rw [h6d] at hm; exact absurd hm (by simp)
  | ok bd =>
    rw [h6d] at hm
    have hchans : chans = lsl_stream_info_add_markers c ++ bd := by
      have := hm; simp at this; exact this.symm
    unfold lsl_stream_info_add_6dof at h6d
    cases hmap : mapME (body_channels c) c.bodies with
    | error e => rw [hmap] at h6d; exact absurd h6d (by simp)
    | ok chunks =>
      rw [hmap] at h6d
      have hbd : bd = chunks.flatten := by
        have := h6d; simp at this; exact this.symm
      obtain ⟨pch, hpch, hfst, hsnd⟩ :=
        mapME_body_pairs c c.bodies p.bodies chunks hbl.symm hmap
      obtain ⟨hmfst, hmsnd⟩ := zip_marker_pairs c.markers p.markers hml.symm
      refine ⟨(c.markers.zip p.markers).flatMap marker_pair_triple ++ pch.flatten, ?_, ?_, ?_⟩
      · unfold spec_aligned
        rw [hpch]
      · rw [List.map_append, hmfst, List.map_flatten, hfst, hchans, hbd, add_markers_eq]
      · rw [List.map_append, hmsnd, List.map_flatten, hsnd, sample_eq p,
            if_pos h3, if_pos h6]
        simp only [List.flatMap_def]

/-- Witness for claim C1 at a concrete configuration with one marker
and one body, and a matching packet. -/
theorem claim_C1_metadata_sample_alignment_witness :
    ∃ pairs, spec_aligned cfg_body_ok pkt_full = .ok pairs ∧
      pairs.map Prod.fst = cfg_body_ok_chans ∧
      pairs.map Prod.snd = qtm_packet_to_lsl_sample pkt_full :=
  claim_C1_metadata_sample_alignment cfg_body_ok cfg_body_ok_chans pkt_full
    (by rfl) (by decide) (by decide) (by decide) (by decide)

/-- Counterexample to claim C8 as stated: for a configuration with one
body and the unrecognized euler angle name `foo`, building metadata
does fail — but with a `KeyError` on the lowered angle name, not with
the `ConfigError` the claim names (no `ConfigError` exists in the
code). -/
theorem claim_C8_counterexample :
    new_lsl_stream_info cfg_bad_angle = .error (.keyError "foo") ∧
    is_config_error (new_lsl_stream_info cfg_bad_angle) = false := ⟨rfl, rfl⟩

/-- Claim C8 (amended): the Metadata Builder maps euler angle names to
rotation channel labels pitch→P, roll→R, yaw→H case-insensitively, and
for every Configuration with at least one rigid body (whose name key is
present) and a fully populated euler order containing an angle name
outside pitch/roll/yaw (case-insensitive), building the 6DOF metadata
fails with a `KeyError` on one of the lowered angle names — not with a
`ConfigError`, which does not exist in the code. -/
theorem claim_C8_euler_angles :
    (∀ (c : Config) (six : The6d) (b : Body) (nm : Option String) (a1 a2 a3 : String),
       c.the_6d = some six → six.bodies = [b] → b.name = some nm →
       six.euler = ⟨some (some a1), some (some a2), some (some a3)⟩ →
       pyLower a1 = "pitch" → pyLower a2 = "roll" → pyLower a3 = "yaw" →
       lsl_stream_info_add_6dof c =
         .ok [position_channel "object" (pyStr nm) "X",
              position_channel "object" (pyStr nm) "Y",
              position_channel "object" (pyStr nm) "Z",
              orientation_channel (pyStr nm) "P",
              orientation_channel (pyStr nm) "R",
              orientation_channel (pyStr nm) "H"]) ∧
    (∀ (c : Config) (six : The6d) (b : Body) (bs : List Body) (nm : Option String)
       (a1 a2 a3 : String),
       c.the_6d = some six → six.bodies = b :: bs → b.name = some nm →
       six.euler = ⟨some (some a1), some (some a2), some (some a3)⟩ →
       (euler_angle_to_component (pyLower a1) = none ∨
        euler_angle_to_component (pyLower a2) = none ∨
        euler_angle_to_component (pyLower a3) = none) →
       ∃ k, lsl_stream_info_add_6dof c = .error (.keyError k) ∧
         is_config_error (lsl_stream_info_add_6dof c) = false ∧
         (k = pyLower a1 ∨ k = pyLower a2 ∨ k = pyLower a3)) := by
  constructor
  · intro c six b nm a1 a2 a3 h6 hbs hnm heu h1 h2 h3
    have hb : body_channels c b =
        .ok [position_channel "object" (pyStr nm) "X",
             position_channel "object" (pyStr nm) "Y",
             position_channel "object" (pyStr nm) "Z",
             orientation_channel (pyStr nm) "P",
             orientation_channel (pyStr nm) "R",
             orientation_channel (pyStr nm) "H"] := by
      unfold body_channels resolve_angle euler_angle_to_component
      rw [hnm, h6]
      dsimp only
      rw [heu]
      dsimp only
      rw [h1, h2, h3]
      rfl
    unfold lsl_stream_info_add_6dof
    rw [show c.bodies = [b] from by unfold Config.bodies; rw [h6]; exact hbs]
    unfold mapME
    rw [hb]
    rfl
  · intro c six b bs nm a1 a2 a3 h6 hbs hnm heu hbad
    have hcb : c.bodies = b :: bs := by unfold Config.bodies; rw [h6]; exact hbs
    cases e1 : euler_angle_to_component (pyLower a1) with
    | none =>
      refine ⟨pyLower a1, ?_, ?_, Or.inl rfl⟩ <;>
        · unfold lsl_stream_info_add_6dof
          rw [hcb]
          unfold mapME
          rw [show body_channels c b = .error (.keyError (pyLower a1)) from by
                unfold body_channels resolve_angle
                rw [hnm, h6]
                dsimp only
                rw [heu]
                simp [e1]]
          all_goals rfl
    | some k1 =>
      cases e2 : euler_angle_to_component (pyLower a2) with
      | none =>
        refine ⟨pyLower a2, ?_, ?_, Or.inr (Or.inl rfl)⟩ <;>
          · unfold lsl_stream_info_add_6dof
            rw [hcb]
            unfold mapME
            rw [show body_channels c b = .error (.keyError (pyLower a2)) from by
                  unfold body_channels resolve_angle
                  rw [hnm, h6]
                  dsimp only
                  rw [heu]
                  simp [e1, e2]]
            all_goals rfl
      | some k2 =>
        have e3 : euler_angle_to_component (pyLower a3) = none := by
          rcases hbad with h | h | h
          · rw [e1] at h; exact absurd h (by simp)
          · rw [e2] at h; exact absurd h (by simp)
          · exact h
        refine ⟨pyLower a3, ?_, ?_, Or.inr (Or.inr rfl)⟩ <;>
          · unfold lsl_stream_info_add_6dof
            rw [hcb]
            unfold mapME
            rw [show body_channels c b = .error (.keyError (pyLower a3)) from by
                  unfold body_channels resolve_angle
                  rw [hnm, h6]
                  dsimp only
                  rw [heu]
                  simp [e1, e2, e3]]
            all_goals rfl

/-- Witness for the amended claim C8: the mapping conjunct at the
mixed-case angles of `cfg_body_ok`, and the failure conjunct at
`cfg_bad_angle`. -/
theorem claim_C8_euler_angles_witness :
    lsl_stream_info_add_6dof cfg_body_ok =
      .ok [position_channel "object" "B" "X", position_channel "object" "B" "Y",
           position_channel "object" "B" "Z", orientation_channel "B" "P",
           orientation_channel "B" "R", orientation_channel "B" "H"] ∧
    ∃ k, lsl_stream_info_add_6dof cfg_bad_angle = .error (.keyError k) ∧
      is_config_error (lsl_stream_info_add_6dof cfg_bad_angle) = false ∧
      (k = pyLower "foo" ∨ k = pyLower "roll" ∨ k = pyLower "yaw") :=
  ⟨claim_C8_euler_angles.1 cfg_body_ok
      ⟨[⟨some (some "B"), []⟩], ⟨some (some "Pitch"), some (some "ROLL"), some (some "yaw")⟩⟩
      ⟨some (some "B"), []⟩ (some "B") "Pitch" "ROLL" "yaw"
      rfl rfl rfl rfl rfl rfl rfl,
   claim_C8_euler_angles.2 cfg_bad_angle
      ⟨[⟨some (some "B"), []⟩], ⟨some (some "foo"), some (some "roll"), some (some "yaw")⟩⟩
      ⟨some (some "B"), []⟩ [] (some "B") "foo" "roll" "yaw"
      rfl rfl rfl rfl (Or.inl rfl)⟩

/-- Claim C10: whenever a parameter document's `General` section is
non-empty (truthy, i.e. has at least one child element), its cameras
parse fine, but it contains no `Frequency` element, the parser raises
`TypeError` (`float(None)`) rather than returning a configuration or
raising a parse error — a `Frequency` element is effectively a
precondition for a non-empty `General` section. -/
theorem claim_C10_missing_frequency (root g : XmlElem) (cams : List Camera)
    (hg : find root "General" = some g)
    (hne : g.children.isEmpty = false)
    (hfreq : find g "Frequency" = none)
    (hcams : mapME (fun cam => parse_camera_params cam.children ⟨none, none, none, none, none, none⟩)
        (findall g "Camera") = .ok cams) :
    parse_qtm_parameters root = .error .typeError := by
  have hgen : parse_qtm_parameters_general g = .error .typeError := by
    unfold parse_qtm_parameters_general
    rw [hcams]
    unfold findtext
    rw [hfreq]
    rfl
  unfold parse_qtm_parameters
  rw [hg]
  dsimp only
  simp only [hne, Bool.false_eq_true, reduceIte]
  rw [hgen]

/-- Witness for claim C10 at the concrete document `doc_nofreq`. -/
theorem claim_C10_missing_frequency_witness :
    parse_qtm_parameters doc_nofreq = .error .typeError :=
  claim_C10_missing_frequency doc_nofreq
    ⟨"General", none, [⟨"Camera", none, [⟨"Id", some "1", []⟩]⟩]⟩
    [⟨some (some "1"), none, none, none, none, none⟩]
    rfl rfl rfl rfl

/-- Draining queued packets through the consumer body never emits a
notification. -/
theorem drain_notes (q : List Packet) :
    ∀ l, (List.foldl stream_receiver_step l q).notes = l.notes := by
  induction q with
  | nil => intro l; rfl
  | cons p t ih =>
    intro l
    rw [List.foldl_cons, ih]
    unfold stream_receiver_step
    dsimp only
    split <;> simp [err_disconnect]

/-- Draining queued packets never touches the connection handle. -/
theorem drain_conn (q : List Packet) :
    ∀ l, (List.foldl stream_receiver_step l q).conn = l.conn := by
  induction q with
  | nil => intro l; rfl
  | cons p t ih =>
    intro l
    rw [List.foldl_cons, ih]
    unfold stream_receiver_step
    dsimp only
    split <;> simp [err_disconnect]

/-- Draining queued packets never changes the link state. -/
theorem drain_state (q : List Packet) :
    ∀ l, (List.foldl stream_receiver_step l q).state = l.state := by
  induction q with
  | nil => intro l; rfl
  | cons p t ih =>
    intro l
    rw [List.foldl_cons, ih]
    unfold stream_receiver_step
    dsimp only
    split <;> simp [err_disconnect]

/-- Draining queued packets never calls `disconnect()`. -/
theorem drain_disc (q : List Packet) :
    ∀ l, count_disc (List.foldl stream_receiver_step l q).trace = count_disc l.trace := by
  induction q with
  | nil => intro l; rfl
  | cons p t ih =>
    intro l
    rw [List.foldl_cons, ih]
    unfold stream_receiver_step
    dsimp only
    split <;> simp [err_disconnect, count_disc, is_disc, List.filter_append]

/-- Disconnect counting distributes over trace concatenation. -/
theorem count_disc_append (t1 t2 : List Action) :
    count_disc (t1 ++ t2) = count_disc t1 + count_disc t2 := by
  simp [count_disc, List.filter_append]

/-- STOPPED-notification counting distributes over concatenation. -/
theorem count_stop_append (n1 n2 : List Notification) :
    count_stop (n1 ++ n2) = count_stop n1 + count_stop n2 := by
  simp [count_stop, List.filter_append]

/-- An error notification is not a STOPPED notification. -/
theorem count_stop_error (m : String) : count_stop [Notification.error m] = 0 := rfl

/-- One STOPPED notification followed by an error notification counts
as one STOPPED notification. -/
theorem count_stop_stopped_error (m : String) :
    count_stop [Notification.stateChanged State.STOPPED, Notification.error m] = 1 := rfl

/-- `stop_stream` never disconnects, never emits a STOPPED
notification, and leaves the connection handle in place. -/
theorem stop_stream_invariants (l : LinkState) :
    (stop_stream l).conn = l.conn ∧
    count_disc (stop_stream l).trace = count_disc l.trace ∧
    count_stop (stop_stream l).notes = count_stop l.notes := by
  obtain ⟨st, conn, pc, stt, spt, clk, cfg, rq, rt, li, lo, sch, tr, nts⟩ := l
  rcases conn with _ | s
  · rcases rq with _ | q <;> by_cases hst : st = State.STREAMING <;>
      simp [stop_stream, reset_stream_context, set_state, drain_notes, drain_conn, drain_disc,
            drain_state, count_disc_append, count_stop_append, hst,
            show count_disc [Action.putSentinel] = 0 from rfl,
            show count_disc [Action.streamFramesStop] = 0 from rfl,
            show count_stop [Notification.stateChanged State.WAITING] = 0 from rfl]
  · cases hht : s.has_transport <;> rcases rq with _ | q <;>
      by_cases hst : st = State.STREAMING <;>
        simp [stop_stream, reset_stream_context, set_state, drain_notes, drain_conn, drain_disc,
              drain_state, count_disc_append, count_stop_append, hst, hht,
              show count_disc [Action.putSentinel] = 0 from rfl,
              show count_disc [Action.streamFramesStop] = 0 from rfl,
              show count_disc [Action.streamFramesStop, Action.putSentinel] = 0 from rfl,
              show count_stop [Notification.stateChanged State.WAITING] = 0 from rfl]

/-- One run of the `shutdown` coroutine, from any state: it always
ends STOPPED with the connection dropped, always emits exactly one more
STOPPED notification (also when it was already STOPPED), disconnects
exactly once when a transported connection was present, and never
disconnects when none was. -/
theorem shutdown_once_facts (l : LinkState) (e : Option String) :
    (shutdown_once l e).state = State.STOPPED ∧
    (shutdown_once l e).conn = none ∧
    count_stop (shutdown_once l e).notes = count_stop l.notes + 1 ∧
    ((∃ s, l.conn = some s ∧ s.has_transport = true) →
        count_disc (shutdown_once l e).trace = count_disc l.trace + 1) ∧
    (l.conn = none → count_disc (shutdown_once l e).trace = count_disc l.trace) := by
  unfold shutdown_once
  have hinv := stop_stream_invariants l
  by_cases hstr : l.state = State.STREAMING
  · rw [if_pos hstr]
    rcases hc : (stop_stream l).conn with _ | s
    · have hcl : l.conn = none := hinv.1.symm.trans hc
      cases e <;>
        simp [set_state, on_error, hc, hcl, count_stop_append, count_disc_append,
              hinv.2.1, hinv.2.2, count_stop_error, count_stop_stopped_error,
              show count_stop [Notification.stateChanged State.STOPPED] = 1 from rfl]
    · have hcl : l.conn = some s := hinv.1.symm.trans hc
      cases hht : s.has_transport <;> cases e <;>
        simp [set_state, on_error, hc, hcl, hht, count_stop_append, count_disc_append,
              hinv.2.1, hinv.2.2, count_stop_error, count_stop_stopped_error,
              show count_disc [Action.disconnect] = 1 from rfl,
              show count_stop [Notification.stateChanged State.STOPPED] = 1 from rfl]
  · rw [if_neg hstr]
    rcases hc : l.conn with _ | s
    · cases e <;>
        simp [set_state, on_error, hc, count_stop_append, count_disc_append, count_stop_error,
              count_stop_stopped_error,
              show count_stop [Notification.stateChanged State.STOPPED] = 1 from rfl]
    · cases hht : s.has_transport <;> cases e <;>
        simp [set_state, on_error, hc, hht, count_stop_append, count_disc_append,
              count_stop_error, count_stop_stopped_error,
              show count_disc [Action.disconnect] = 1 from rfl,
              show count_stop [Notification.stateChanged State.STOPPED] = 1 from rfl]

/-- Claim C3: while STREAMING, for a packet the consumer dequeues (with
nothing else pending): a sample whose length differs from the
configuration's channel count triggers an error-driven shutdown that
ends STOPPED, pushes nothing and leaves `packet_count` unchanged; a
matching sample increments `packet_count` by one and pushes exactly
that sample to the outlet. -/
theorem claim_C3_stream_consistency (l : LinkState) (p : Packet)
    (hs : l.state = State.STREAMING)
    (hsch : l.scheduled = [])
    (hq : l.receiver_queue = some []) :
    ((qtm_packet_to_lsl_sample p).length ≠ l.config.channel_count →
      (event_loop (stream_receiver_step l p)).state = State.STOPPED ∧
      (event_loop (stream_receiver_step l p)).packet_count = l.packet_count ∧
      count_pushes (event_loop (stream_receiver_step l p)).trace = count_pushes l.trace ∧
      Notification.error "Stream canceled: QTM stream data inconsistent with LSL metadata" ∈
        (event_loop (stream_receiver_step l p)).notes) ∧
    ((qtm_packet_to_lsl_sample p).length = l.config.channel_count →
      stream_receiver_step l p =
        { l with packet_count := l.packet_count + 1,
                 trace := l.trace ++ [Action.pushSample (qtm_packet_to_lsl_sample p)] }) := by
  constructor
  · intro hne
    rcases hconn : l.conn with _ | s
    · simp [stream_receiver_step, hne, err_disconnect, event_loop, event_loop_fuel, hsch, hq,
            run_scheduled, shutdown_once, stop_stream, reset_stream_context, set_state,
            on_error, hs, hconn, count_pushes, is_push]
    · cases hht : s.has_transport <;>
        simp [stream_receiver_step, hne, err_disconnect, event_loop, event_loop_fuel, hsch, hq,
              run_scheduled, shutdown_once, stop_stream, reset_stream_context, set_state,
              on_error, hs, hconn, hht, count_pushes, is_push, List.filter_append]
  · intro heq
    simp [stream_receiver_step, heq]

/-- Witness for claim C3: a streaming link expecting 3 channels, with a
mismatching packet (empty components data, sample length 0) and a
matching one-marker packet. -/
theorem claim_C3_stream_consistency_witness :
    ((event_loop (stream_receiver_step streaming_link pkt_empty)).state = State.STOPPED ∧
     (event_loop (stream_receiver_step streaming_link pkt_empty)).packet_count =
       streaming_link.packet_count ∧
     count_pushes (event_loop (stream_receiver_step streaming_link pkt_empty)).trace =
       count_pushes streaming_link.trace ∧
     Notification.error "Stream canceled: QTM stream data inconsistent with LSL metadata" ∈
       (event_loop (stream_receiver_step streaming_link pkt_empty)).notes) ∧
    stream_receiver_step streaming_link pkt_3d_only =
      { streaming_link with
          packet_count := streaming_link.packet_count + 1,
          trace := streaming_link.trace ++
            [Action.pushSample (qtm_packet_to_lsl_sample pkt_3d_only)] } :=
  ⟨(claim_C3_stream_consistency streaming_link pkt_empty rfl rfl rfl).1 (by decide),
   (claim_C3_stream_consistency streaming_link pkt_3d_only rfl rfl rfl).2 (by decide)⟩

/-- Counterexample to claim C4 as stated: in a fully successful
`start_stream` run the consumer task is started strictly before the
metadata is built and the outlet constructed, whereas the claim puts
Outlet construction before the consumer-task start. -/
theorem claim_C4_counterexample :
    (start_stream (waiting_link session_ok 3 5)).state = State.STREAMING ∧
    (start_stream (waiting_link session_ok 3 5)).trace = canonical_start_trace ∧
    canonical_start_trace.indexOf Action.startConsumer <
      canonical_start_trace.indexOf Action.constructOutlet ∧
    ¬ canonical_start_trace.indexOf Action.constructOutlet <
        canonical_start_trace.indexOf Action.startConsumer :=
  ⟨rfl, rfl, by decide, by decide⟩

/-- Claim C4 (amended): every `start_stream` call performs, in order,
fetch parameters → parse into a Configuration → reject if
`channel_count() = 0` → create the queue and start the consumer task →
build Metadata → construct the Outlet → request frame delivery (the
consumer task is started before Metadata/Outlet, not after); only when
every step succeeds does it reset `packet_count` to 0, record
`start_time`, and set state STREAMING; a failure at any step instead
triggers an error-driven shutdown that ends STOPPED without ever
notifying STREAMING. -/
theorem claim_C4_start_stream_order (s : Session) (clk pc : ℕ) :
    (∀ doc cfg chans, s.get_parameters_r = .ok doc → parse_qtm_parameters doc = .ok cfg →
       cfg.channel_count ≠ 0 → new_lsl_stream_info cfg = .ok chans →
       s.stream_frames_r = .ok () →
       (start_stream (waiting_link s clk pc)).trace = canonical_start_trace ∧
       (start_stream (waiting_link s clk pc)).state = State.STREAMING ∧
       (start_stream (waiting_link s clk pc)).packet_count = 0 ∧
       (start_stream (waiting_link s clk pc)).start_time = clk ∧
       (start_stream (waiting_link s clk pc)).notes = [Notification.stateChanged State.STREAMING] ∧
       (start_stream (waiting_link s clk pc)).scheduled = []) ∧
    (∀ e, s.get_parameters_r = .error e → start_error_shutdown s clk pc) ∧
    (∀ doc pe, s.get_parameters_r = .ok doc → parse_qtm_parameters doc = .error pe →
       start_error_shutdown s clk pc) ∧
    (∀ doc cfg, s.get_parameters_r = .ok doc → parse_qtm_parameters doc = .ok cfg →
       cfg.channel_count = 0 → start_error_shutdown s clk pc) ∧
    (∀ doc cfg pe, s.get_parameters_r = .ok doc → parse_qtm_parameters doc = .ok cfg →
       cfg.channel_count ≠ 0 → new_lsl_stream_info cfg = .error pe →
       start_error_shutdown s clk pc) ∧
    (∀ doc cfg chans e, s.get_parameters_r = .ok doc → parse_qtm_parameters doc = .ok cfg →
       cfg.channel_count ≠ 0 → new_lsl_stream_info cfg = .ok chans →
       s.stream_frames_r = .error e → start_error_shutdown s clk pc) := by
  refine ⟨?_, ?_, ?_, ?_, ?_, ?_⟩
  · intro doc cfg chans hp hparse hcc hmeta hsf
    simp [start_stream, waiting_link, link_init, hp, hparse, hcc, hmeta, hsf, set_state,
          canonical_start_trace]
  · intro e hp
    unfold start_error_shutdown
    cases hht : s.has_transport <;>
      simp [start_stream, waiting_link, link_init, hp, err_disconnect, event_loop,
            event_loop_fuel, run_scheduled, shutdown_once, stop_stream, reset_stream_context,
            set_state, on_error, hht]
  · intro doc pe hp hparse
    unfold start_error_shutdown
    cases hht : s.has_transport <;>
      simp [start_stream, waiting_link, link_init, hp, hparse, err_disconnect, event_loop,
            event_loop_fuel, run_scheduled, shutdown_once, stop_stream, reset_stream_context,
            set_state, on_error, hht]
  · intro doc cfg hp hparse hcc
    unfold start_error_shutdown
    cases hht : s.has_transport <;>
      simp [start_stream, waiting_link, link_init, hp, hparse, hcc, err_disconnect, event_loop,
            event_loop_fuel, run_scheduled, shutdown_once, stop_stream, reset_stream_context,
            set_state, on_error, hht]
  · intro doc cfg pe hp hparse hcc hmeta
    unfold start_error_shutdown
    cases hht : s.has_transport <;>
      simp [start_stream, waiting_link, link_init, hp, hparse, hcc, hmeta, err_disconnect,
            event_loop, event_loop_fuel, run_scheduled, shutdown_once, stop_stream,
            reset_stream_context, set_state, on_error, hht]
  · intro doc cfg chans e hp hparse hcc hmeta hsf
    unfold start_error_shutdown
    cases hht : s.has_transport <;>
      simp [start_stream, waiting_link, link_init, hp, hparse, hcc, hmeta, hsf, err_disconnect,
            event_loop, event_loop_fuel, run_scheduled, shutdown_once, stop_stream,
            reset_stream_context, set_state, on_error, hht]

/-- Witness for the amended claim C4: the successful branch at a
responsive session delivering the one-marker document. -/
theorem claim_C4_start_stream_order_witness :
    (start_stream (waiting_link session_ok 3 5)).trace = canonical_start_trace ∧
    (start_stream (waiting_link session_ok 3 5)).state = State.STREAMING ∧
    (start_stream (waiting_link session_ok 3 5)).packet_count = 0 ∧
    (start_stream (waiting_link session_ok 3 5)).start_time = 3 ∧
    (start_stream (waiting_link session_ok 3 5)).notes =
      [Notification.stateChanged State.STREAMING] ∧
    (start_stream (waiting_link session_ok 3 5)).scheduled = [] :=
  (claim_C4_start_stream_order session_ok 3 5).1 doc_3d
    ⟨none, some ⟨[some "M1"]⟩, none⟩
    [position_channel "marker" "M1" "X", position_channel "marker" "M1" "Y",
     position_channel "marker" "M1" "Z"]
    rfl rfl (by decide) rfl rfl

/-- Counterexample to claim C5 as stated: when the post-connect state
query fails, the initializer does shut down and raise `LinkError` — but
a WAITING state-changed notification has already been emitted, because
`set_state(State.WAITING)` runs before `get_state()` is awaited. -/
theorem claim_C5_counterexample :
    (init (some session_state_fail) 7).2 = some "QTM error: boom" ∧
    Notification.stateChanged State.WAITING ∈ (init (some session_state_fail) 7).1.notes ∧
    (init (some session_state_fail) 7).1.notes =
      [Notification.stateChanged State.WAITING, Notification.stateChanged State.STOPPED] :=
  ⟨rfl, by decide, rfl⟩

/-- Claim C5 (amended): during Link initialization, a successful
connect is followed by `set_state(WAITING)` — emitting a WAITING
notification — and only then by the session state query; if the query
fails the initializer shuts the link down (ending STOPPED, connection
dropped, disconnecting when a transport remains) and raises `LinkError`
to its caller, so the link does reach WAITING before the failure
surfaces. -/
theorem claim_C5_init_query_failure (s : Session) (e : String) (clk : ℕ)
    (h : s.get_state_r = .error e) :
    (init (some s) clk).2 = some ("QTM error: " ++ e) ∧
    (init (some s) clk).1.state = State.STOPPED ∧
    (init (some s) clk).1.conn = none ∧
    (init (some s) clk).1.notes =
      [Notification.stateChanged State.WAITING, Notification.stateChanged State.STOPPED] ∧
    (s.has_transport = true → Action.disconnect ∈ (init (some s) clk).1.trace) := by
  cases hht : s.has_transport <;>
    simp [init, link_init, set_state, shutdown_once, stop_stream, reset_stream_context,
          on_error, h, hht]

/-- Witness for the amended claim C5 at a concrete failing session. -/
theorem claim_C5_init_query_failure_witness :
    (init (some session_state_fail) 7).2 = some ("QTM error: " ++ "boom") ∧
    (init (some session_state_fail) 7).1.state = State.STOPPED ∧
    (init (some session_state_fail) 7).1.conn = none ∧
    (init (some session_state_fail) 7).1.notes =
      [Notification.stateChanged State.WAITING, Notification.stateChanged State.STOPPED] ∧
    (session_state_fail.has_transport = true →
      Action.disconnect ∈ (init (some session_state_fail) 7).1.trace) :=
  claim_C5_init_query_failure session_state_fail "boom" 7 rfl

/-- Claim C6: for every parameter document that parses to a
configuration with `channel_count() = 0`, `start_stream` performs an
error-driven shutdown reporting "No 3D or 6DOF data available from
QTM", never constructs an Outlet, and never enters (or notifies)
STREAMING; the link ends STOPPED. -/
theorem claim_C6_zero_channel_reject (s : Session) (clk pc : ℕ) (doc : XmlElem) (cfg : Config)
    (hp : s.get_parameters_r = .ok doc)
    (hparse : parse_qtm_parameters doc = .ok cfg)
    (hzero : cfg.channel_count = 0) :
    (event_loop (start_stream (waiting_link s clk pc))).state = State.STOPPED ∧
    Notification.error "No 3D or 6DOF data available from QTM" ∈
      (event_loop (start_stream (waiting_link s clk pc))).notes ∧
    Action.constructOutlet ∉ (event_loop (start_stream (waiting_link s clk pc))).trace ∧
    Notification.stateChanged State.STREAMING ∉
      (event_loop (start_stream (waiting_link s clk pc))).notes := by
  cases hht : s.has_transport <;>
    simp [start_stream, waiting_link, link_init, hp, hparse, hzero, err_disconnect,
          event_loop, event_loop_fuel, run_scheduled, shutdown_once, stop_stream,
          reset_stream_context, set_state, on_error, hht]

/-- Witness for claim C6: a session delivering a document with no
`The_3D` or `The_6D` section at all. -/
theorem claim_C6_zero_channel_reject_witness :
    (event_loop (start_stream (waiting_link session_zero 0 0))).state = State.STOPPED ∧
    Notification.error "No 3D or 6DOF data available from QTM" ∈
      (event_loop (start_stream (waiting_link session_zero 0 0))).notes ∧
    Action.constructOutlet ∉ (event_loop (start_stream (waiting_link session_zero 0 0))).trace ∧
    Notification.stateChanged State.STREAMING ∉
      (event_loop (start_stream (waiting_link session_zero 0 0))).notes :=
  claim_C6_zero_channel_reject session_zero 0 0 doc_empty ⟨none, none, none⟩ rfl rfl rfl

/-- Counterexample to claim C7 as stated: from the WAITING state with a
connected session, two sequential `shutdown` calls produce TWO STOPPED
state-changed notifications (the second call re-runs
`set_state(STOPPED)` in the `finally` block), not exactly one — though
`disconnect()` is indeed called exactly once. -/
theorem claim_C7_counterexample :
    count_stop (shutdown_once (shutdown_once waiting_link0 none) none).notes = 2 ∧
    count_disc (shutdown_once (shutdown_once waiting_link0 none) none).trace = 1 ∧
    (shutdown_once waiting_link0 none).notes = [Notification.stateChanged State.STOPPED] ∧
    (shutdown_once (shutdown_once waiting_link0 none) none).notes =
      [Notification.stateChanged State.STOPPED, Notification.stateChanged State.STOPPED] :=
  ⟨rfl, rfl, rfl, rfl⟩

/-- Claim C7 (amended): from every non-terminal state with a connected,
transported session, two sequential `shutdown` calls end STOPPED with
the connection dropped and call `disconnect()` on the session exactly
once (the second call performs no `stop_stream` and no disconnect);
however each of the two calls emits its own STOPPED notification, so
exactly two STOPPED state-changed notifications are emitted, not
one. -/
theorem claim_C7_shutdown_twice (l : LinkState) (s : Session) (e1 e2 : Option String)
    (hc : l.conn = some s) (hht : s.has_transport = true)
    (hns : l.state ≠ State.STOPPED) (hni : l.state ≠ State.INITIAL) :
    (shutdown_once (shutdown_once l e1) e2).state = State.STOPPED ∧
    (shutdown_once (shutdown_once l e1) e2).conn = none ∧
    count_disc (shutdown_once (shutdown_once l e1) e2).trace = count_disc l.trace + 1 ∧
    count_stop (shutdown_once (shutdown_once l e1) e2).notes = count_stop l.notes + 2 := by
  obtain ⟨hst1, hcn1, hns1, hdsome, -⟩ := shutdown_once_facts l e1
  obtain ⟨hst2, hcn2, hns2, -, hdnone⟩ := shutdown_once_facts (shutdown_once l e1) e2
  refine ⟨hst2, hcn2, ?_, ?_⟩
  · rw [hdnone hcn1, hdsome ⟨s, hc, hht⟩]
  · rw [hns2, hns1]

/-- Witness for the amended claim C7 at a concrete waiting link. -/
theorem claim_C7_shutdown_twice_witness :
    (shutdown_once (shutdown_once waiting_link0 none) none).state = State.STOPPED ∧
    (shutdown_once (shutdown_once waiting_link0 none) none).conn = none ∧
    count_disc (shutdown_once (shutdown_once waiting_link0 none) none).trace =
      count_disc waiting_link0.trace + 1 ∧
    count_stop (shutdown_once (shutdown_once waiting_link0 none) none).notes =
      count_stop waiting_link0.notes + 2 :=
  claim_C7_shutdown_twice waiting_link0 session_zero none none rfl rfl
    (by decide) (by decide)

end Qlsl
